import Mathlib

/-!
Verification development for `src/app.py` of the repository
`conferencia_xml_reforma` (NF-e XML conformance checker for the
Brazilian IBS/CBS tax reform).

The embedding models:
  - Python `decimal.Decimal` finite values as `ℚ` (exact rational
    arithmetic).  Python's `Decimal` also parses the special values
    `NaN`/`Infinity`; those make the downstream `quantize`/comparison
    operations of the program raise `InvalidOperation`, and are outside
    this model (the model's string parser rejects them, see the
    discussion at the checklist-totality claim).
  - `xml.etree.ElementTree` elements as a mutual inductive tree
    (`XNode`/`XForest`).  Element tags are stored in the
    namespace-expanded form used by ElementTree, i.e. `{uri}local`;
    the brace characters inside string literals are written with the
    escapes `\x7b` and `\x7d`.
  - `pandas` only where the program relies on it: building the final
    tables, the ascending sort by the `Ordem` column (missing ordinals
    sort last), and the `KeyError` that `sort_values` raises when the
    frame built from an empty row list has no `Ordem` column.
Fallible Python code (the `int(nItem)` conversion, the empty-frame
sort) is modelled with `Except`.
-/

/-! ## Decimal model (`decimal.Decimal`, finite values, as `ℚ`) -/

/-- Numeric value of a list of decimal digit characters. -/
def digitsVal (ds : List Char) : ℕ :=
  ds.foldl (fun a c => 10 * a + (c.toNat - 48)) 0

/-- The rational `10 ^ n`. -/
def pow10 (n : ℕ) : ℚ := (((10 : ℕ) ^ n : ℕ) : ℚ)

/-- Whitespace characters stripped by Python's string parsing
(`str.strip` also strips some unicode spaces, which no NF-e field
contains). -/
def isPySpace (c : Char) : Bool :=
  c == ' ' || c == '\t' || c == '\n' || c == '\r' || c == '\x0b' || c == '\x0c'

/-- Strip leading and trailing whitespace from a character list. -/
def trimChars (cs : List Char) : List Char :=
  ((cs.dropWhile isPySpace).reverse.dropWhile isPySpace).reverse

/-- Parse the mantissa part `digits [. digits]` of a decimal numeral,
returning its value and the unconsumed rest.  Mirrors the mantissa
part of the `decimal.Decimal` numeric-string grammar. -/
def parseMantissa (cs : List Char) : Option (ℚ × List Char) :=
  let ip := cs.takeWhile Char.isDigit
  let r1 := cs.dropWhile Char.isDigit
  match r1 with
  | '.' :: r2 =>
    let fp := r2.takeWhile Char.isDigit
    let r3 := r2.dropWhile Char.isDigit
    if ip.isEmpty && fp.isEmpty then none
    else some (((digitsVal ip : ℕ) : ℚ) + ((digitsVal fp : ℕ) : ℚ) / pow10 fp.length, r3)
  | _ => if ip.isEmpty then none else some (((digitsVal ip : ℕ) : ℚ), r1)

/-- Parse the optional exponent part `[eE] [+-] digits` of a decimal
numeral; the whole rest of the input must be consumed by it. -/
def parseExponent (cs : List Char) : Option ℤ :=
  match cs with
  | [] => some 0
  | c :: r =>
    if c == 'e' || c == 'E' then
      let sg : ℤ := match r with
        | '-' :: _ => -1
        | _ => 1
      let r2 : List Char := match r with
        | '+' :: t => t
        | '-' :: t => t
        | t => t
      let ds := r2.takeWhile Char.isDigit
      let r3 := r2.dropWhile Char.isDigit
      if ds.isEmpty then none
      else if r3.isEmpty then some (sg * (digitsVal ds : ℤ)) else none
    else none

/-- Apply a base-10 exponent to a mantissa. -/
def applyExp (m : ℚ) (e : ℤ) : ℚ :=
  if 0 ≤ e then m * pow10 e.toNat else m / pow10 (-e).toNat

/-- Parse a finite decimal numeral the way the `Decimal(str)`
constructor does: optional surrounding whitespace, optional sign,
`digits [. digits]` (at least one digit), optional exponent.
Returns `none` where `Decimal` raises `InvalidOperation`.  (Python
additionally accepts the special values `NaN`/`Infinity` and
underscore digit separators; neither occurs in NF-e numeric fields
and both are outside this finite model.) -/
def parseDecimal (s : String) : Option ℚ :=
  let cs := trimChars s.data
  let sgn : ℚ := match cs with
    | '-' :: _ => -1
    | _ => 1
  let cs1 : List Char := match cs with
    | '+' :: t => t
    | '-' :: t => t
    | t => t
  match parseMantissa cs1 with
  | none => none
  | some (m, rest) =>
    match parseExponent rest with
    | none => none
    | some e => some (sgn * applyExp m e)

/-- The program's `d` helper (src/app.py lines 83-88): convert a string
to `Decimal`, returning `Decimal("0.00")` on any parse failure. -/
def d (s : String) : ℚ :=
  match parseDecimal s with
  | some v => v
  | none => 0

/-- The program applies `d` to results of `gettext`, which are
`Optional[str]`: `Decimal(None)` raises `TypeError`, which `d`'s
`except` clause also turns into `0.00`. -/
def dOpt (v : Option String) : ℚ :=
  match v with
  | some s => d s
  | none => 0

/-- Python's `int(str)` conversion (sign and digits; underscore
separators are not modelled), `none` where `int` raises `ValueError`. -/
def pyInt (s : String) : Option ℤ :=
  let cs := trimChars s.data
  let sg : ℤ := match cs with
    | '-' :: _ => -1
    | _ => 1
  let cs1 : List Char := match cs with
    | '+' :: t => t
    | '-' :: t => t
    | t => t
  if cs1.isEmpty then none
  else if cs1.all Char.isDigit then some (sg * (digitsVal cs1 : ℤ)) else none

/-- Integer result of rounding a rational half-up (ties away from
zero), as `decimal.ROUND_HALF_UP` does. -/
def halfUpInt (q : ℚ) : ℤ :=
  if 0 ≤ q then ⌊q + 1 / 2⌋ else -⌊-q + 1 / 2⌋

/-- The program's `x.quantize(Decimal("0.01"), rounding=ROUND_HALF_UP)`:
round to 2 decimal places, half away from zero. -/
def quantize2 (q : ℚ) : ℚ := ((halfUpInt (q * 100) : ℤ) : ℚ) / 100

/-! ## XML tree model (`xml.etree.ElementTree`) -/

mutual
/-- An XML element: tag (namespace-expanded, `{uri}local`), attributes,
text content (`none` when the element has no text, as in ElementTree),
children. -/
inductive XNode : Type where
  | node : String → List (String × String) → Option String → XForest → XNode
/-- Children list of an element (a separate mutual inductive so that
recursion over the tree is structural). -/
inductive XForest : Type where
  | nil : XForest
  | cons : XNode → XForest → XForest
end

/-- View a forest as a list of elements. -/
def XForest.toList : XForest → List XNode
  | .nil => []
  | .cons c cs => c :: cs.toList

/-- Build a forest from a list of elements. -/
def XForest.ofList : List XNode → XForest
  | [] => .nil
  | c :: cs => .cons c (XForest.ofList cs)

/-- Tag of an element. -/
def XNode.tag : XNode → String
  | .node t _ _ _ => t

/-- Attribute list of an element (`elem.attrib`). -/
def XNode.attrib : XNode → List (String × String)
  | .node _ a _ _ => a

/-- Text content of an element (`elem.text`; `none` when absent). -/
def XNode.text : XNode → Option String
  | .node _ _ x _ => x

/-- Children of an element, as a list. -/
def XNode.kids : XNode → List XNode
  | .node _ _ _ cs => cs.toList

mutual
/-- All proper descendants of an element, in document (preorder)
order; this is the node set searched by an ElementTree `.//` path. -/
def XNode.descendants : XNode → List XNode
  | .node _ _ _ cs => XForest.desc cs
/-- Each element of the forest followed by its descendants. -/
def XForest.desc : XForest → List XNode
  | .nil => []
  | .cons c cs => c :: (XNode.descendants c ++ XForest.desc cs)
end

/-- Split a character list at every occurrence of a separator. -/
def splitOnChar (sep : Char) : List Char → List (List Char)
  | [] => [[]]
  | x :: xs =>
    match splitOnChar sep xs with
    | [] => if x == sep then [[], []] else [[x]]
    | h :: t => if x == sep then [] :: h :: t else (x :: h) :: t

/-- The NF-e namespace URI in ElementTree's expanded-tag form. -/
def nfeBrace : String := "\x7bhttp://www.portalfiscal.inf.br/nfe\x7d"

/-- The xmldsig namespace URI in expanded-tag form; in the program's
`ns` dictionary but never used on a queried path. -/
def dsBrace : String := "\x7bhttp://www.w3.org/2000/09/xmldsig#\x7d"

/-- Expand one path segment with the program's `ns` namespace map, as
`find(path, ns)` does: `nfe:local` becomes `{nfe-uri}local`. -/
def nsExpandSeg : List Char → String
  | 'n' :: 'f' :: 'e' :: ':' :: rest => String.mk (nfeBrace.data ++ rest)
  | 'd' :: 's' :: ':' :: rest => String.mk (dsBrace.data ++ rest)
  | l => String.mk l

/-- Local part of an expanded tag: the program computes
`ch.tag.split("}")[1] if "}" in ch.tag else ch.tag`. -/
def localTag (t : String) : String :=
  match splitOnChar '}' t.data with
  | _ :: b :: _ => String.mk b
  | _ => t

/-- Concatenation of the images of a list under a list-valued map. -/
def concatMap {α β : Type} (f : α → List β) : List α → List β
  | [] => []
  | x :: xs => f x ++ concatMap f xs

/-- Children of an element whose tag matches a namespace-expanded path
segment. -/
def childMatches (e : XNode) (seg : List Char) : List XNode :=
  e.kids.filter (fun c => c.tag == nsExpandSeg seg)

/-- Walk a child path (already split into segments) from an element,
collecting all matches in document order. -/
def findSegs : List (List Char) → XNode → List XNode
  | [], e => [e]
  | seg :: rest, e => concatMap (findSegs rest) (childMatches e seg)

/-- ElementTree `findall(path, ns)` for the two path shapes the
program uses: a relative child path `a/b/...`, or a descendant path
`.//a/b/...` whose first segment is searched among all descendants. -/
def XNode.findallNS (e : XNode) (path : String) : List XNode :=
  match path.data with
  | '.' :: '/' :: '/' :: restChars =>
    match splitOnChar '/' restChars with
    | [] => []
    | seg :: rest =>
      concatMap (findSegs rest) (e.descendants.filter (fun n => n.tag == nsExpandSeg seg))
  | l => findSegs (splitOnChar '/' l) e

/-- ElementTree `find(path, ns)`: first match in document order. -/
def XNode.findNS (e : XNode) (path : String) : Option XNode :=
  (e.findallNS path).head?

/-- The program's `gettext` helper (src/app.py lines 90-95): safe text
lookup.  `none` elements give `""`; an unresolved path gives `""`; a
resolved element gives its `text` attribute (which is Python `None`,
modelled `none`, for a text-less element). -/
def gettext (elem : Option XNode) (path : String) : Option String :=
  match elem with
  | none => some ""
  | some e =>
    match e.findNS path with
    | some found => found.text
    | none => some ""

/-! ## Line-item extraction (`build_quadro`, src/app.py lines 104-226) -/

/-- Fields read from the `IBSCBS` group of one item.  The program
extracts these with the same lines in both `build_quadro`
(lines 165-176) and `build_checklist` (lines 278-286); the shared
helper mirrors that duplicated code. -/
structure IbsCbs where
  cst : Option String
  cclass : Option String
  vBC : ℚ
  vIBS : ℚ
  vCBS : ℚ

/-- The outer container of a tax group under `imposto`:
`imposto.find(tag, ns) if imposto is not None else None` with
`imposto = det.find("nfe:imposto", ns)`. -/
def containerOf (det : XNode) (tag : String) : Option XNode :=
  match det.findNS "nfe:imposto" with
  | none => none
  | some imp => imp.findNS tag

/-- First child of an optional container:
`list(parent)[0] if (parent is not None and len(parent)) else None`. -/
def firstChild : Option XNode → Option XNode
  | none => none
  | some p => p.kids.head?

/-- The IPI variant node: the first child of the `IPI` container whose
local tag is `IPITrib` or `IPINT` (src/app.py lines 154-161). -/
def ipiVariant : Option XNode → Option XNode
  | none => none
  | some p => p.kids.find? (fun ch => localTag ch.tag == "IPITrib" || localTag ch.tag == "IPINT")

/-- Extraction of the IBS/CBS fields of one item (src/app.py
lines 165-176 and, duplicated, 278-286). -/
def ibscbsOf (det : XNode) : IbsCbs :=
  let ibscbs := containerOf det "nfe:IBSCBS"
  let g : Option XNode := match ibscbs with
    | none => none
    | some x => x.findNS "nfe:gIBSCBS"
  let gCBS : Option XNode := match g with
    | none => none
    | some x => x.findNS "nfe:gCBS"
  { cst := gettext ibscbs "nfe:CST"
    cclass := gettext ibscbs "nfe:cClassTrib"
    vBC := dOpt (gettext g "nfe:vBC")
    vIBS := dOpt (gettext g "nfe:vIBS")
    vCBS := match gCBS with
      | none => d ""
      | some gc => dOpt (gettext (some gc) "nfe:vCBS") }

/-- One row of the per-item summary table (the dict built at
src/app.py lines 181-209).  Monetary fields are kept as exact
decimals; the program converts them to `float` only when storing them
into the display table. -/
structure Row where
  ordem : Option ℤ
  cProd : Option String
  ncm : Option String
  cfop : Option String
  cstIcms : Option String
  bcIcms : ℚ
  pIcms : ℚ
  vIcms : ℚ
  cstPis : Option String
  basePis : ℚ
  pPis : ℚ
  vPis : ℚ
  cstCofins : Option String
  baseCofins : ℚ
  pCofins : ℚ
  vCofins : ℚ
  cstIbs : Option String
  classIbs : Option String
  baseIbs : ℚ
  vIbs : ℚ
  cstCbs : Option String
  classCbs : Option String
  baseCbs : ℚ
  vCbs : ℚ
  baseIpi : ℚ
  vIpi : ℚ
  totalItem : ℚ
deriving Inhabited

/-- The `Ordem` value of an item:
`int(nItem) if nItem else None` with `nItem = det.attrib.get("nItem", "")`;
`int` raises `ValueError` on a malformed attribute. -/
def rowOrdem (det : XNode) : Except String (Option ℤ) :=
  let nItem := (det.attrib.lookup "nItem").getD ""
  if nItem.isEmpty then Except.ok none
  else
    match pyInt nItem with
    | some k => Except.ok (some k)
    | none => Except.error "ValueError: invalid literal for int()"

/-- All fields of one item row except the ordinal (the body of the
`for det in root.findall(".//nfe:det", ns)` loop, src/app.py
lines 114-209). -/
def rowBody (det : XNode) (o : Option ℤ) : Row :=
  let prod := det.findNS "nfe:prod"
  let vProd := dOpt (gettext prod "nfe:vProd")
  let vFrete := dOpt (gettext prod "nfe:vFrete")
  let vSeg := dOpt (gettext prod "nfe:vSeg")
  let vDesc := dOpt (gettext prod "nfe:vDesc")
  let vOutro := dOpt (gettext prod "nfe:vOutro")
  let icms_node := firstChild (containerOf det "nfe:ICMS")
  let pis_node := firstChild (containerOf det "nfe:PIS")
  let cof_node := firstChild (containerOf det "nfe:COFINS")
  let ipi_node := ipiVariant (containerOf det "nfe:IPI")
  let vIPI := dOpt (gettext ipi_node "nfe:vIPI")
  let f := ibscbsOf det
  { ordem := o
    cProd := gettext prod "nfe:cProd"
    ncm := gettext prod "nfe:NCM"
    cfop := gettext prod "nfe:CFOP"
    cstIcms := gettext icms_node "nfe:CST"
    bcIcms := dOpt (gettext icms_node "nfe:vBC")
    pIcms := dOpt (gettext icms_node "nfe:pICMS")
    vIcms := dOpt (gettext icms_node "nfe:vICMS")
    cstPis := gettext pis_node "nfe:CST"
    basePis := dOpt (gettext pis_node "nfe:vBC")
    pPis := dOpt (gettext pis_node "nfe:pPIS")
    vPis := dOpt (gettext pis_node "nfe:vPIS")
    cstCofins := gettext cof_node "nfe:CST"
    baseCofins := dOpt (gettext cof_node "nfe:vBC")
    pCofins := dOpt (gettext cof_node "nfe:pCOFINS")
    vCofins := dOpt (gettext cof_node "nfe:vCOFINS")
    cstIbs := f.cst
    classIbs := f.cclass
    baseIbs := f.vBC
    vIbs := f.vIBS
    cstCbs := f.cst
    classCbs := f.cclass
    baseCbs := f.vBC
    vCbs := f.vCBS
    baseIpi := dOpt (gettext ipi_node "nfe:vBC")
    vIpi := vIPI
    totalItem := quantize2 (vProd + vFrete + vSeg + vOutro - vDesc + vIPI) }

/-- Build one item row; fails exactly where the Python loop body
raises (`int` on a malformed `nItem` attribute). -/
def buildRow (det : XNode) : Except String Row :=
  match rowOrdem det with
  | Except.error e => Except.error e
  | Except.ok o => Except.ok (rowBody det o)

/-- Ascending comparison on the `Ordem` column with missing ordinals
last, as `pandas.sort_values` orders rows with missing keys. -/
def ordemLeB (a b : Row) : Bool :=
  match a.ordem, b.ordem with
  | none, none => true
  | some _, none => true
  | none, some _ => false
  | some x, some y => decide (x ≤ y)

/-- Insert a row into a list sorted by `ordemLeB`. -/
def insertByOrdem (r : Row) : List Row → List Row
  | [] => [r]
  | x :: xs => if ordemLeB r x then r :: x :: xs else x :: insertByOrdem r xs

/-- Sort the item rows by ordinal ascending (`sort_values("Ordem")`). -/
def sortByOrdem : List Row → List Row
  | [] => []
  | x :: xs => insertByOrdem x (sortByOrdem xs)

/-- The synthetic totals record appended as the last table row: the
literal marker `"TOTAL"` in the ordinal column and one aggregate per
numeric column (src/app.py lines 213-224).  The program computes each
aggregate as `Decimal(str(df[col].sum())).quantize(Decimal("0.01"),
ROUND_HALF_UP)` where `df[col]` holds the `float` conversions of the
decimal values; the model sums the exact decimal values instead, so
no claim about these aggregates is settled by this definition alone. -/
structure TotalRow where
  marker : String
  bcIcms : ℚ
  pIcms : ℚ
  vIcms : ℚ
  basePis : ℚ
  pPis : ℚ
  vPis : ℚ
  baseCofins : ℚ
  pCofins : ℚ
  vCofins : ℚ
  baseIbs : ℚ
  vIbs : ℚ
  baseCbs : ℚ
  vCbs : ℚ
  baseIpi : ℚ
  vIpi : ℚ
  totalItem : ℚ

/-- Rounded column sum over the item rows. -/
def colSum (rows : List Row) (f : Row → ℚ) : ℚ :=
  quantize2 ((rows.map f).sum)

/-- The totals record of a list of item rows. -/
def totalsOf (rows : List Row) : TotalRow :=
  { marker := "TOTAL"
    bcIcms := colSum rows Row.bcIcms
    pIcms := colSum rows Row.pIcms
    vIcms := colSum rows Row.vIcms
    basePis := colSum rows Row.basePis
    pPis := colSum rows Row.pPis
    vPis := colSum rows Row.vPis
    baseCofins := colSum rows Row.baseCofins
    pCofins := colSum rows Row.pCofins
    vCofins := colSum rows Row.vCofins
    baseIbs := colSum rows Row.baseIbs
    vIbs := colSum rows Row.vIbs
    baseCbs := colSum rows Row.baseCbs
    vCbs := colSum rows Row.vCbs
    baseIpi := colSum rows Row.baseIpi
    vIpi := colSum rows Row.vIpi
    totalItem := colSum rows Row.totalItem }

/-- The program's `build_quadro` (src/app.py lines 104-226): build one
row per `det` element, sort by ordinal, append the totals record.
`pd.DataFrame(rows).sort_values("Ordem")` raises `KeyError: 'Ordem'`
when `rows` is empty, because the DataFrame built from an empty list
has no columns; the model returns that failure as an `Except.error`. -/
def build_quadro (root : XNode) : Except String (List Row × TotalRow) :=
  match (root.findallNS ".//nfe:det").mapM buildRow with
  | Except.error e => Except.error e
  | Except.ok rows =>
    if rows.isEmpty then Except.error "KeyError: Ordem"
    else
      let sorted := sortByOrdem rows
      Except.ok (sorted, totalsOf sorted)

/-! ## Checklist validation (`build_checklist`, src/app.py lines 229-312) -/

/-- One checklist row (the dict built by the nested `add` helper,
src/app.py lines 240-248). -/
structure Check where
  grupo : String
  campo : String
  regra : String
  status : String
  encontrado : String
  esperado : String

/-- Status column value: `"✅" if ok else "❌"`. -/
def statusOf (ok : Bool) : String := if ok then "✅" else "❌"

/-- The checklist's `add` helper: callers pass `encontrado`/`esperado`
already rendered to strings (`""` where the Python code passes
`None`). -/
def addCheck (grupo campo regra : String) (ok : Bool) (encontrado esperado : String) : Check :=
  { grupo := grupo, campo := campo, regra := regra
    status := statusOf ok, encontrado := encontrado, esperado := esperado }

/-- Python truthiness of an `Optional[str]`: `None` and `""` are
falsy. -/
def truthy : Option String → Bool
  | none => false
  | some s => !s.isEmpty

/-- Rendering of an `Optional[str]` by `add`
(`"" if v is None else str(v)`). -/
def showOpt (v : Option String) : String := v.getD ""

/-- Rendering of a decimal by `add` (`str(v)` on a `Decimal`).  The
exact Python string keeps the original digit count of the value
(`"5.0"` versus `"5.00"`), which the `ℚ` model abstracts away; no
claim concerns these presentation strings. -/
def decRepr (q : ℚ) : String := toString q

/-- Rendering of a rate in a rule description (`f"{pct:.2f}"` on a
`float`; presentation only, same abstraction as `decRepr`). -/
def fmt2 (q : ℚ) : String := decRepr (quantize2 q)

/-- Header and parties checks (src/app.py lines 250-267), in source
order. -/
def headerPartyChecks (root : XNode) : List Check :=
  let tpAmb := gettext (some root) ".//nfe:ide/nfe:tpAmb"
  let emit_cnpj := gettext (some root) ".//nfe:emit/nfe:CNPJ"
  let emit_ie := gettext (some root) ".//nfe:emit/nfe:IE"
  let dest_cnpj := gettext (some root) ".//nfe:dest/nfe:CNPJ"
  let dest_ie := gettext (some root) ".//nfe:dest/nfe:IE"
  let dest_uf := gettext (some root) ".//nfe:dest/nfe:enderDest/nfe:UF"
  let indIEDest := gettext (some root) ".//nfe:dest/nfe:indIEDest"
  [ addCheck "Cabeçalho" "ide/tpAmb" "Deve ser 2 (homologação)" (decide (tpAmb = some "2")) (showOpt tpAmb) "2",
    addCheck "Partes" "emit/CNPJ" "Preenchido" (truthy emit_cnpj) (showOpt emit_cnpj) "",
    addCheck "Partes" "emit/IE" "Preenchido" (truthy emit_ie) (showOpt emit_ie) "",
    addCheck "Partes" "dest/CNPJ" "Preenchido" (truthy dest_cnpj) (showOpt dest_cnpj) "",
    addCheck "Partes" "dest/IE" "Preenchido" (truthy dest_ie) (showOpt dest_ie) "",
    addCheck "Partes" "dest/UF" "Preenchido" (truthy dest_uf) (showOpt dest_uf) "",
    addCheck "Partes" "dest/indIEDest" "Deve ser 1 (contribuinte)" (decide (indIEDest = some "1")) (showOpt indIEDest) "1" ]

/-- The five per-item checks (src/app.py lines 288-297).  The expected
amounts use `p = Decimal(str(pct/100.0))`; the float division and
shortest-representation round-trip of that conversion are modelled as
the exact rational `pct / 100` (exact for the program's default
parameters 0.10, 0.90 and 0.01). -/
def itemCheckRows (idx : ℕ) (ibs_pct cbs_pct tol : ℚ) (det : XNode) : List Check :=
  let f := ibscbsOf det
  let expected_vIBS := quantize2 (f.vBC * (ibs_pct / 100))
  let expected_vCBS := quantize2 (f.vBC * (cbs_pct / 100))
  let label := "Item " ++ toString idx
  [ addCheck label "IBSCBS/CST" "Preenchido" (truthy f.cst) (showOpt f.cst) "",
    addCheck label "IBSCBS/cClassTrib" "Preenchido" (truthy f.cclass) (showOpt f.cclass) "",
    addCheck label "IBSCBS/vBC" "Preenchido (>0 quando tributado)" (decide (f.vBC > 0)) (decRepr f.vBC) "",
    addCheck label "VALOR IBS" ("vBC × " ++ fmt2 ibs_pct ++ "% (2 casas)")
      (decide (|f.vIBS - expected_vIBS| ≤ tol)) (decRepr f.vIBS) (decRepr expected_vIBS),
    addCheck label "VALOR CBS" ("vBC × " ++ fmt2 cbs_pct ++ "% (2 casas)")
      (decide (|f.vCBS - expected_vCBS| ≤ tol)) (decRepr f.vCBS) (decRepr expected_vCBS) ]

/-- Per-item checks for all items, labels numbered from `idx`
(`enumerate(..., start=1)` in the source). -/
def itemChecksFrom (idx : ℕ) (ibs_pct cbs_pct tol : ℚ) : List XNode → List Check
  | [] => []
  | det :: rest => itemCheckRows idx ibs_pct cbs_pct tol det ++ itemChecksFrom (idx + 1) ibs_pct cbs_pct tol rest

/-- One step of the running totals `sum_vBC += vBC; sum_vIBS += vIBS;
sum_vCBS += vCBS` (src/app.py lines 299-301). -/
def sumStep (acc : ℚ × ℚ × ℚ) (det : XNode) : ℚ × ℚ × ℚ :=
  (acc.1 + (ibscbsOf det).vBC, acc.2.1 + (ibscbsOf det).vIBS, acc.2.2 + (ibscbsOf det).vCBS)

/-- The program's `build_checklist` (src/app.py lines 229-312): header
check, parties checks, five checks per item, and the three cross-total
checks, which compare the full-precision running sums for exact
equality (`==`, no tolerance) with the declared `IBSCBSTot` fields. -/
def build_checklist (root : XNode) (ibs_pct cbs_pct tol : ℚ) : List Check :=
  let dets := root.findallNS ".//nfe:det"
  let sums := dets.foldl sumStep (0, 0, 0)
  let vBC_total := dOpt (gettext (some root) ".//nfe:IBSCBSTot/nfe:vBCIBSCBS")
  let vIBS_total := dOpt (gettext (some root) ".//nfe:IBSCBSTot/nfe:gIBS/nfe:vIBS")
  let vCBS_total := dOpt (gettext (some root) ".//nfe:IBSCBSTot/nfe:gCBS/nfe:vCBS")
  headerPartyChecks root
  ++ itemChecksFrom 1 ibs_pct cbs_pct tol dets
  ++ [ addCheck "Totais" "IBSCBSTot/vBCIBSCBS" "Σ vBC_itens"
         (decide (sums.1 = vBC_total)) (decRepr vBC_total) (decRepr sums.1),
       addCheck "Totais" "IBSCBSTot/gIBS/vIBS" "Σ vIBS_itens"
         (decide (sums.2.1 = vIBS_total)) (decRepr vIBS_total) (decRepr sums.2.1),
       addCheck "Totais" "IBSCBSTot/gCBS/vCBS" "Σ vCBS_itens"
         (decide (sums.2.2 = vCBS_total)) (decRepr vCBS_total) (decRepr sums.2.2) ]

/-! ## Concrete documents used to instantiate the theorems -/

/-- Build an element in the NF-e namespace with no attributes or text. -/
def elN (t : String) (kids : List XNode) : XNode :=
  .node (nfeBrace ++ t) [] none (XForest.ofList kids)

/-- Build a leaf element in the NF-e namespace carrying text. -/
def txtN (t v : String) : XNode :=
  .node (nfeBrace ++ t) [] (some v) XForest.nil

/-- A document with no line items at all. -/
def emptyRoot : XNode := elN "NFe" []

/-- A line item with no tax groups whatsoever. -/
def c2det : XNode := elN "det" []

/-- A line item with product value 100.00 and IPI amount 5.00, and no
freight, insurance, discount or other charges. -/
def c4det : XNode :=
  XNode.node (nfeBrace ++ "det") [("nItem", "1")] none (XForest.ofList [
    elN "prod" [txtN "vProd" "100.00"],
    elN "imposto" [elN "IPI" [elN "IPITrib" [txtN "vBC" "100.00", txtN "vIPI" "5.00"]]]])

/-- The row extracted from `c4det`. -/
def c4row : Row := (buildRow c4det).toOption.getD default

/-- The `ICMS40` variant node of `c6det`. -/
def c6icms : XNode :=
  XNode.node (nfeBrace ++ "ICMS40") [] none (XForest.ofList
    [txtN "CST" "40", txtN "vBC" "10.00", txtN "pICMS" "18.00", txtN "vICMS" "1.80"])

/-- A line item whose ICMS container holds a single variant child
(tag `ICMS40`), whose PIS container is absent entirely, and whose
COFINS container is present but empty. -/
def c6det : XNode :=
  XNode.node (nfeBrace ++ "det") [("nItem", "1")] none (XForest.ofList [
    elN "imposto" [elN "ICMS" [c6icms], elN "COFINS" []]])

/-- The row extracted from `c6det`. -/
def c6row : Row := (buildRow c6det).toOption.getD default

/-- A document with a header environment field. -/
def c7root : XNode := elN "NFe" [elN "infNFe" [elN "ide" [txtN "tpAmb" "2"]]]

/-- The `tpAmb` element of `c7root`. -/
def c7tpAmb : XNode := txtN "tpAmb" "2"

/-- A line item whose `gCBS` sub-group carries its own `vBC` (999.00),
different from the shared `gIBSCBS` base (200.00). -/
def c10det : XNode :=
  XNode.node (nfeBrace ++ "det") [("nItem", "2")] none (XForest.ofList [
    elN "imposto" [elN "IBSCBS" [txtN "CST" "000", txtN "cClassTrib" "000001",
      elN "gIBSCBS" [txtN "vBC" "200.00", txtN "vIBS" "0.20",
        elN "gCBS" [txtN "vCBS" "1.80", txtN "vBC" "999.00"]]]]])

/-- The row extracted from `c10det`. -/
def c10row : Row := (buildRow c10det).toOption.getD default

/-! ## Helper lemmas -/

/-- A successfully built row is the loop body applied to its element. -/
theorem buildRow_ok (det : XNode) (row : Row) (h : buildRow det = Except.ok row) :
    row = rowBody det row.ordem := by
  unfold buildRow at h
  cases ho : rowOrdem det with
  | error e => rw [ho] at h; exact absurd h (by simp)
  | ok o =>
    rw [ho] at h
    have hb : rowBody det o = row := Except.ok.inj h
    rw [← hb]
    rfl

/-- The pass/fail rendering is `"✅"` exactly on a true decidable
condition. -/
theorem statusOf_decide (p : Prop) [Decidable p] : (statusOf (decide p) = "✅") ↔ p := by
  by_cases h : p <;> simp [statusOf, h]

/-- The running-sum fold of `build_checklist` computes the
full-precision sums of the per-item decimal values. -/
theorem sumsFold (dets : List XNode) (a b c : ℚ) :
    dets.foldl sumStep (a, b, c) =
      (a + (dets.map (fun det => (ibscbsOf det).vBC)).sum,
       b + (dets.map (fun det => (ibscbsOf det).vIBS)).sum,
       c + (dets.map (fun det => (ibscbsOf det).vCBS)).sum) := by
  induction dets generalizing a b c with
  | nil => simp
  | cons det rest ih => simp [List.foldl_cons, sumStep, ih, add_assoc]

/-! ## Claim theorems -/

/-- Claim C1 (counterexample): on a parsed document with zero line
items, extraction does not return an empty item sequence plus a zero
totals record — it fails: `pd.DataFrame([]).sort_values("Ordem")`
raises `KeyError` because the empty frame has no `Ordem` column. -/
theorem c1_zero_items_counterexample :
    build_quadro emptyRoot = Except.error "KeyError: Ordem" := rfl

/-- Claim C1 (amended): for every parsed document containing zero line
items, extraction fails with the `Ordem` key-lookup error raised by
sorting the empty table; no row list and no totals record are
returned. -/
theorem c1_zero_items_fails (root : XNode) (h : root.findallNS ".//nfe:det" = []) :
    build_quadro root = Except.error "KeyError: Ordem" := by
  unfold build_quadro
  rw [h]
  rfl

/-- Claim C1 witness: the amended statement at the concrete empty
document. -/
theorem c1_zero_items_fails_witness :
    emptyRoot.findallNS ".//nfe:det" = [] ∧
    build_quadro emptyRoot = Except.error "KeyError: Ordem" :=
  ⟨rfl, c1_zero_items_fails emptyRoot rfl⟩

/-- Claim C4: for every line item that yields a record, the computed
item total is `product value + freight + insurance + other charges −
discount + IPI amount`, rounded half-up to 2 decimal places; the
formula reads only those six inputs, so ICMS/PIS/COFINS/IBS/CBS
amounts are excluded. -/
theorem c4_item_total (det : XNode) (row : Row) (h : buildRow det = Except.ok row) :
    row.totalItem = quantize2 (
      dOpt (gettext (det.findNS "nfe:prod") "nfe:vProd")
      + dOpt (gettext (det.findNS "nfe:prod") "nfe:vFrete")
      + dOpt (gettext (det.findNS "nfe:prod") "nfe:vSeg")
      + dOpt (gettext (det.findNS "nfe:prod") "nfe:vOutro")
      - dOpt (gettext (det.findNS "nfe:prod") "nfe:vDesc")
      + row.vIpi) := by
  rw [buildRow_ok det row h]
  rfl

/-- Claim C4 witness: product value 100.00, IPI amount 5.00, nothing
else — item total 105.00. -/
theorem c4_item_total_witness :
    buildRow c4det = Except.ok c4row ∧ c4row.totalItem = 105 :=
  ⟨rfl, by rw [c4_item_total c4det c4row rfl]; decide!⟩

/-- Claim C6: for each of ICMS, PIS and COFINS, extraction reads the
first child of the outer container — whatever that child's variant tag
is — and pulls CST, base, rate and amount from it; an absent or empty
outer container yields the empty string for the CST and zero for every
numeric field of that tax. -/
theorem c6_tagged_union (det : XNode) (row : Row) (h : buildRow det = Except.ok row) :
    ((∀ n, firstChild (containerOf det "nfe:ICMS") = some n →
      row.cstIcms = gettext (some n) "nfe:CST" ∧
      row.bcIcms = dOpt (gettext (some n) "nfe:vBC") ∧
      row.pIcms = dOpt (gettext (some n) "nfe:pICMS") ∧
      row.vIcms = dOpt (gettext (some n) "nfe:vICMS")) ∧
    (firstChild (containerOf det "nfe:ICMS") = none →
      row.cstIcms = some "" ∧ row.bcIcms = 0 ∧ row.pIcms = 0 ∧ row.vIcms = 0)) ∧
    ((∀ n, firstChild (containerOf det "nfe:PIS") = some n →
      row.cstPis = gettext (some n) "nfe:CST" ∧
      row.basePis = dOpt (gettext (some n) "nfe:vBC") ∧
      row.pPis = dOpt (gettext (some n) "nfe:pPIS") ∧
      row.vPis = dOpt (gettext (some n) "nfe:vPIS")) ∧
    (firstChild (containerOf det "nfe:PIS") = none →
      row.cstPis = some "" ∧ row.basePis = 0 ∧ row.pPis = 0 ∧ row.vPis = 0)) ∧
    ((∀ n, firstChild (containerOf det "nfe:COFINS") = some n →
      row.cstCofins = gettext (some n) "nfe:CST" ∧
      row.baseCofins = dOpt (gettext (some n) "nfe:vBC") ∧
      row.pCofins = dOpt (gettext (some n) "nfe:pCOFINS") ∧
      row.vCofins = dOpt (gettext (some n) "nfe:vCOFINS")) ∧
    (firstChild (containerOf det "nfe:COFINS") = none →
      row.cstCofins = some "" ∧ row.baseCofins = 0 ∧ row.pCofins = 0 ∧ row.vCofins = 0)) := by
  rw [buildRow_ok det row h]
  refine ⟨⟨fun n hn => ?_, fun hn => ?_⟩, ⟨fun n hn => ?_, fun hn => ?_⟩,
    ⟨fun n hn => ?_, fun hn => ?_⟩⟩ <;>
    simp only [rowBody] <;> rw [hn] <;> exact ⟨rfl, rfl, rfl, rfl⟩

/-- Claim C6 witness: an ICMS container whose single child has the
variant tag `ICMS40` is read through that child; an absent PIS
container and an empty COFINS container give the defaults. -/
theorem c6_tagged_union_witness :
    buildRow c6det = Except.ok c6row ∧
    firstChild (containerOf c6det "nfe:ICMS") = some c6icms ∧
    c6row.cstIcms = gettext (some c6icms) "nfe:CST" ∧
    c6row.cstIcms = some "40" ∧
    firstChild (containerOf c6det "nfe:PIS") = none ∧
    c6row.cstPis = some "" ∧
    firstChild (containerOf c6det "nfe:COFINS") = none ∧
    c6row.vCofins = 0 :=
  ⟨rfl, rfl,
    ((c6_tagged_union c6det c6row rfl).1.1 c6icms rfl).1,
    by rw [((c6_tagged_union c6det c6row rfl).1.1 c6icms rfl).1]; rfl,
    rfl,
    ((c6_tagged_union c6det c6row rfl).2.1.2 rfl).1,
    rfl,
    ((c6_tagged_union c6det c6row rfl).2.2.2 rfl).2.2.2⟩

/-- Claim C7: `gettext` is null-safe: a `None` element gives `""`, an
unresolved path gives `""`, and a resolved path gives the found
element's text content; the function is total, so it never raises. -/
theorem c7_gettext_nullsafe (elem : Option XNode) (path : String) :
    (elem = none → gettext elem path = some "") ∧
    (∀ e, elem = some e → e.findNS path = none → gettext elem path = some "") ∧
    (∀ e f, elem = some e → e.findNS path = some f → gettext elem path = f.text) := by
  refine ⟨fun h => by rw [h]; rfl,
    fun e he hf => by rw [he]; simp [gettext, hf],
    fun e f he hf => by rw [he]; simp [gettext, hf]⟩

/-- Claim C7 witness: the three cases at concrete inputs. -/
theorem c7_gettext_nullsafe_witness :
    gettext none "nfe:vBC" = some "" ∧
    gettext (some c7root) ".//nfe:ide/nfe:missing" = some "" ∧
    gettext (some c7root) ".//nfe:ide/nfe:tpAmb" = some "2" :=
  ⟨(c7_gettext_nullsafe none "nfe:vBC").1 rfl,
    (c7_gettext_nullsafe (some c7root) ".//nfe:ide/nfe:missing").2.1 c7root rfl rfl,
    by rw [(c7_gettext_nullsafe (some c7root) ".//nfe:ide/nfe:tpAmb").2.2 c7root c7tpAmb rfl rfl]; rfl⟩

/-- Claim C9: the numeric parser `d` is total: it returns the parsed
decimal value on success and zero on any parse failure (empty,
unparseable or malformed numeral), never propagating an error. -/
theorem c9_d_lenient (s : String) :
    (parseDecimal s = none → d s = 0) ∧ (∀ q, parseDecimal s = some q → d s = q) := by
  refine ⟨fun h => by simp [d, h], fun q h => by simp [d, h]⟩

/-- Claim C9 witness: concrete failures map to zero. -/
theorem c9_d_lenient_witness :
    parseDecimal "" = none ∧ d "" = 0 ∧
    parseDecimal "12,34" = none ∧ d "12,34" = 0 ∧
    parseDecimal "1..2" = none ∧ d "1..2" = 0 :=
  ⟨rfl, (c9_d_lenient "").1 rfl, rfl, (c9_d_lenient "12,34").1 rfl,
    rfl, (c9_d_lenient "1..2").1 rfl⟩

/-- Claim C10: in every extracted record the CBS tax base equals the
IBS tax base (and the CBS situation and classification codes equal the
IBS ones); the base is the shared `gIBSCBS/vBC` value, and only the
CBS amount is read from the `gCBS` sub-group. -/
theorem c10_cbs_base_reuse (det : XNode) (row : Row) (h : buildRow det = Except.ok row) :
    row.baseCbs = row.baseIbs ∧
    row.cstCbs = row.cstIbs ∧
    row.classCbs = row.classIbs ∧
    row.baseIbs = (ibscbsOf det).vBC ∧
    row.vCbs = (ibscbsOf det).vCBS := by
  rw [buildRow_ok det row h]
  exact ⟨rfl, rfl, rfl, rfl, rfl⟩

/-- Claim C10 witness: even when `gCBS` carries its own `vBC`
(999.00), the extracted CBS base is the shared IBS base (200.00),
while the CBS amount does come from `gCBS`. -/
theorem c10_cbs_base_reuse_witness :
    buildRow c10det = Except.ok c10row ∧
    c10row.baseCbs = c10row.baseIbs ∧
    c10row.baseIbs = d "200.00" ∧
    c10row.vCbs = d "1.80" :=
  ⟨rfl, (c10_cbs_base_reuse c10det c10row rfl).1,
    by rw [(c10_cbs_base_reuse c10det c10row rfl).2.2.2.1]; rfl,
    by rw [(c10_cbs_base_reuse c10det c10row rfl).2.2.2.2]; rfl⟩

/-- Claim C2: the per-item value checks compute the expected amount as
tax base × (rate / 100) rounded half-up to 2 decimals, and pass
exactly when the absolute difference between the observed and expected
amounts is at most the tolerance — for IBS with the IBS rate and for
CBS with the CBS rate; in particular an observed amount of exactly
expected + tolerance passes and expected + tolerance + 0.01 fails. -/
theorem c2_item_value_check (det : XNode) (r c t : ℚ) (i : ℕ) (ht : 0 ≤ t) :
    ((itemCheckRows i r c t det).map Check.status =
      [statusOf (truthy (ibscbsOf det).cst),
       statusOf (truthy (ibscbsOf det).cclass),
       statusOf (decide ((ibscbsOf det).vBC > 0)),
       statusOf (decide (|(ibscbsOf det).vIBS - quantize2 ((ibscbsOf det).vBC * (r / 100))| ≤ t)),
       statusOf (decide (|(ibscbsOf det).vCBS - quantize2 ((ibscbsOf det).vBC * (c / 100))| ≤ t))]) ∧
    ((statusOf (decide (|(ibscbsOf det).vIBS - quantize2 ((ibscbsOf det).vBC * (r / 100))| ≤ t)) = "✅") ↔
      |(ibscbsOf det).vIBS - quantize2 ((ibscbsOf det).vBC * (r / 100))| ≤ t) ∧
    ((statusOf (decide (|(ibscbsOf det).vCBS - quantize2 ((ibscbsOf det).vBC * (c / 100))| ≤ t)) = "✅") ↔
      |(ibscbsOf det).vCBS - quantize2 ((ibscbsOf det).vBC * (c / 100))| ≤ t) ∧
    |quantize2 ((ibscbsOf det).vBC * (r / 100)) + t - quantize2 ((ibscbsOf det).vBC * (r / 100))| ≤ t ∧
    ¬ |quantize2 ((ibscbsOf det).vBC * (r / 100)) + t + 1 / 100 - quantize2 ((ibscbsOf det).vBC * (r / 100))| ≤ t := by
  refine ⟨rfl, statusOf_decide _, statusOf_decide _, ?_, ?_⟩
  · have he : quantize2 ((ibscbsOf det).vBC * (r / 100)) + t
        - quantize2 ((ibscbsOf det).vBC * (r / 100)) = t := by ring
    rw [he, abs_of_nonneg ht]
  · have he : quantize2 ((ibscbsOf det).vBC * (r / 100)) + t + 1 / 100
        - quantize2 ((ibscbsOf det).vBC * (r / 100)) = t + 1 / 100 := by ring
    rw [he, abs_of_nonneg (by linarith : (0 : ℚ) ≤ t + 1 / 100)]
    intro hc
    linarith

/-- Claim C2 witness: the characterization at the default parameters
(IBS 0.10 %, CBS 0.90 %, tolerance 0.01) and a concrete item. -/
theorem c2_item_value_check_witness :
    (0 : ℚ) ≤ 1 / 100 ∧
    (((itemCheckRows 1 (1 / 10) (9 / 10) (1 / 100) c2det).map Check.status =
      [statusOf (truthy (ibscbsOf c2det).cst),
       statusOf (truthy (ibscbsOf c2det).cclass),
       statusOf (decide ((ibscbsOf c2det).vBC > 0)),
       statusOf (decide (|(ibscbsOf c2det).vIBS - quantize2 ((ibscbsOf c2det).vBC * (1 / 10 / 100))| ≤ 1 / 100)),
       statusOf (decide (|(ibscbsOf c2det).vCBS - quantize2 ((ibscbsOf c2det).vBC * (9 / 10 / 100))| ≤ 1 / 100))]) ∧
    ((statusOf (decide (|(ibscbsOf c2det).vIBS - quantize2 ((ibscbsOf c2det).vBC * (1 / 10 / 100))| ≤ 1 / 100)) = "✅") ↔
      |(ibscbsOf c2det).vIBS - quantize2 ((ibscbsOf c2det).vBC * (1 / 10 / 100))| ≤ 1 / 100) ∧
    ((statusOf (decide (|(ibscbsOf c2det).vCBS - quantize2 ((ibscbsOf c2det).vBC * (9 / 10 / 100))| ≤ 1 / 100)) = "✅") ↔
      |(ibscbsOf c2det).vCBS - quantize2 ((ibscbsOf c2det).vBC * (9 / 10 / 100))| ≤ 1 / 100) ∧
    |quantize2 ((ibscbsOf c2det).vBC * (1 / 10 / 100)) + 1 / 100
      - quantize2 ((ibscbsOf c2det).vBC * (1 / 10 / 100))| ≤ 1 / 100 ∧
    ¬ |quantize2 ((ibscbsOf c2det).vBC * (1 / 10 / 100)) + 1 / 100 + 1 / 100
      - quantize2 ((ibscbsOf c2det).vBC * (1 / 10 / 100))| ≤ 1 / 100) :=
  ⟨by norm_num, c2_item_value_check c2det (1 / 10) (9 / 10) (1 / 100) 1 (by norm_num)⟩

/-- Claim C3: the checklist ends with the three cross-total checks;
each compares the full-precision running sum of the per-item decimal
values (tax base, IBS amount, CBS amount — no per-item rounding) for
exact equality, with no tolerance, against the corresponding declared
`IBSCBSTot` field. -/
theorem c3_cross_totals_exact (root : XNode) (r c t : ℚ) :
    ∃ pre, build_checklist root r c t = pre ++
      [ addCheck "Totais" "IBSCBSTot/vBCIBSCBS" "Σ vBC_itens"
          (decide ((((root.findallNS ".//nfe:det").map (fun det => (ibscbsOf det).vBC)).sum) =
            dOpt (gettext (some root) ".//nfe:IBSCBSTot/nfe:vBCIBSCBS")))
          (decRepr (dOpt (gettext (some root) ".//nfe:IBSCBSTot/nfe:vBCIBSCBS")))
          (decRepr (((root.findallNS ".//nfe:det").map (fun det => (ibscbsOf det).vBC)).sum)),
        addCheck "Totais" "IBSCBSTot/gIBS/vIBS" "Σ vIBS_itens"
          (decide ((((root.findallNS ".//nfe:det").map (fun det => (ibscbsOf det).vIBS)).sum) =
            dOpt (gettext (some root) ".//nfe:IBSCBSTot/nfe:gIBS/nfe:vIBS")))
          (decRepr (dOpt (gettext (some root) ".//nfe:IBSCBSTot/nfe:gIBS/nfe:vIBS")))
          (decRepr (((root.findallNS ".//nfe:det").map (fun det => (ibscbsOf det).vIBS)).sum)),
        addCheck "Totais" "IBSCBSTot/gCBS/vCBS" "Σ vCBS_itens"
          (decide ((((root.findallNS ".//nfe:det").map (fun det => (ibscbsOf det).vCBS)).sum) =
            dOpt (gettext (some root) ".//nfe:IBSCBSTot/nfe:gCBS/nfe:vCBS")))
          (decRepr (dOpt (gettext (some root) ".//nfe:IBSCBSTot/nfe:gCBS/nfe:vCBS")))
          (decRepr (((root.findallNS ".//nfe:det").map (fun det => (ibscbsOf det).vCBS)).sum)) ] := by
  refine ⟨headerPartyChecks root ++ itemChecksFrom 1 r c t (root.findallNS ".//nfe:det"), ?_⟩
  simp only [build_checklist, sumsFold, zero_add, List.append_assoc]
